import Mathlib

/-!
# A shallow embedding of `lynchman.py` (strategineer/lynchman)

This file embeds the core of `src/lynchman.py` — the note classifier
(`Song._get_notes`), the `Song` / `SongCollection` data model and their
metric accessors, the summary-text computation (`get_basic_data_as_text`),
the spatial density grid (`build_note_heatmap`) and the cut-direction
distribution (`build_cut_directions_drawing`) — and proves the testable
properties of its specification against that embedding.

Modelling conventions:
* Python numbers are modelled by `Rat` (exact arithmetic); Python's `/`
  raises `ZeroDivisionError` on a zero denominator, modelled by `pyDiv`
  returning `Except`.
* numpy's array true-division never raises; on a zero denominator it
  produces `nan` (for a `0` numerator) or `inf` (positive numerator),
  modelled by `NpVal` / `npDiv`.
* A parsed song JSON document is modelled by `SongDoc`; a Python dict
  access `d["_k"]` raising `KeyError` on a missing key is modelled by
  `pyGet` over `Option` fields.
-/

/-- One note record, as read from the `_notes` array of a song document:
the code reads `n["_time"]`, `n["_lineIndex"]`, `n["_lineLayer"]`,
`n["_type"]`, `n["_cutDirection"]`. The JSON fields are arbitrary
numbers, so the integer fields are `Int`, unrestricted. -/
structure Note where
  time : Rat
  lineIndex : Int
  lineLayer : Int
  type : Int
  cutDirection : Int
deriving DecidableEq, Repr

/-- The `NoteType` enum of `lynchman.py` (lines 19-25). -/
inductive NoteType where
  | NONE
  | ALL
  | NORMAL
  | LEFT
  | RIGHT
  | BOMB
deriving DecidableEq, Repr

/-- Python exceptions that the embedded code can raise:
`ZeroDivisionError` from `/` with a zero denominator, `KeyError` from a
dict access with a missing key. -/
inductive PyError where
  | zeroDivisionError
  | keyError
deriving DecidableEq, Repr

/-- Equality of embedded fallible results is decidable (used to evaluate
the embedding at concrete inputs). -/
instance {e a : Type} [DecidableEq e] [DecidableEq a] :
    DecidableEq (Except e a) := fun x y =>
  match x, y with
  | Except.error u, Except.error v =>
      if h : u = v then isTrue (by rw [h]) else isFalse (by simp [h])
  | Except.error u, Except.ok w => isFalse (by simp)
  | Except.ok w, Except.error u => isFalse (by simp)
  | Except.ok w, Except.ok v =>
      if h : w = v then isTrue (by rw [h]) else isFalse (by simp [h])

/-- Python dict access `d["_k"]`: the value if the key is present,
`KeyError` otherwise. -/
def pyGet {α : Type} (o : Option α) : Except PyError α :=
  match o with
  | some v => Except.ok v
  | none => Except.error PyError.keyError

/-- Python true division `a / b`: raises `ZeroDivisionError` when `b == 0`. -/
def pyDiv (a b : Rat) : Except PyError Rat :=
  if b = 0 then Except.error PyError.zeroDivisionError else Except.ok (a / b)

/-- A numpy floating value: a finite number, `nan`, or `inf`. -/
inductive NpVal where
  | num (q : Rat)
  | nan
  | inf
deriving DecidableEq, Repr

/-- numpy true-division of an integer count `a` by an integer length `b`:
no exception; `0 / 0` is `nan`, `a / 0` with `a > 0` is `inf` (with only a
runtime warning), otherwise the finite quotient. -/
def npDiv (a b : Nat) : NpVal :=
  if b = 0 then (if a = 0 then NpVal.nan else NpVal.inf)
  else NpVal.num ((a : Rat) / (b : Rat))

/-- The per-note inclusion test of `Song._get_notes` (lines 86-99):
`is_included` as computed by the loop body for one note's `_type` value. -/
def isIncluded (note_type : NoteType) (type_value : Int) : Bool :=
  let included :=
    if type_value = 0 ∨ type_value = 1 then
      if note_type = NoteType.NORMAL then true
      else if note_type = NoteType.LEFT ∧ type_value = 0 then true
      else if note_type = NoteType.RIGHT ∧ type_value = 1 then true
      else false
    else false
  if note_type = NoteType.BOMB ∧ type_value = 3 then true else included

/-- `Song._get_notes` (lines 81-100): the `ALL` view is the raw list,
every other view keeps the notes whose `_type` makes `is_included` true,
in original order. -/
def filterNotes (notes : List Note) (note_type : NoteType) : List Note :=
  if note_type = NoteType.ALL then notes
  else notes.filter (fun n => isIncluded note_type n.type)

/-- A parsed song JSON document. Each field the code ever reads is
`Option`-valued: `none` models a missing key. `events` content is unused
by the core but the key is read at construction. -/
structure SongDoc where
  events : Option (List Note)
  notes : Option (List Note)
  version : Option String
  beatsPerMinute : Option Rat
  beatsPerBar : Option Rat
  noteJumpSpeed : Option Rat
  shuffle : Option Rat
  shufflePeriod : Option Rat
deriving DecidableEq, Repr

/-- A constructed `Song`: identity strings, the parsed document
(`self._data`), the raw note list (`self._notes`) and the four views
cached at construction. -/
structure Song where
  ident : String
  name : String
  difficulty : String
  data : SongDoc
  notesAll : List Note
  notes_normal : List Note
  notes_left : List Note
  notes_right : List Note
  notes_bomb : List Note
deriving DecidableEq, Repr

/-- `Song.__init__` (lines 56-67): reads `_events` and `_notes` from the
document (raising `KeyError` if either is absent) and caches the four
filtered views. No metadata field is read at construction. -/
def Song.build (ident name difficulty : String) (data : SongDoc) :
    Except PyError Song := do
  let _ev ← pyGet data.events
  let ns ← pyGet data.notes
  Except.ok
    { ident := ident, name := name, difficulty := difficulty, data := data,
      notesAll := ns,
      notes_normal := filterNotes ns NoteType.NORMAL,
      notes_left := filterNotes ns NoteType.LEFT,
      notes_right := filterNotes ns NoteType.RIGHT,
      notes_bomb := filterNotes ns NoteType.BOMB }

/-- `Song.get_notes` (lines 69-79): returns the cached view for the five
handled categories; any other `NoteType` falls off the `if`/`elif` chain
and Python implicitly returns `None`. -/
def Song.get_notes (s : Song) (note_type : NoteType) : Option (List Note) :=
  if note_type = NoteType.ALL then some s.notesAll
  else if note_type = NoteType.NORMAL then some s.notes_normal
  else if note_type = NoteType.LEFT then some s.notes_left
  else if note_type = NoteType.RIGHT then some s.notes_right
  else if note_type = NoteType.BOMB then some s.notes_bomb
  else none

/-- `Song.get_version` (lines 102-103): lazy dict access. -/
def Song.get_version (s : Song) : Except PyError String :=
  pyGet s.data.version

/-- `Song.get_beats_per_minute` (lines 105-106): lazy dict access. -/
def Song.get_beats_per_minute (s : Song) : Except PyError Rat :=
  pyGet s.data.beatsPerMinute

/-- `Song.get_beats_per_bar` (lines 108-109): lazy dict access. -/
def Song.get_beats_per_bar (s : Song) : Except PyError Rat :=
  pyGet s.data.beatsPerBar

/-- `Song.get_note_jump_speed` (lines 111-112): lazy dict access. -/
def Song.get_note_jump_speed (s : Song) : Except PyError Rat :=
  pyGet s.data.noteJumpSpeed

/-- `Song.get_shuffle` (lines 114-115): lazy dict access. -/
def Song.get_shuffle (s : Song) : Except PyError Rat :=
  pyGet s.data.shuffle

/-- `Song.get_shuffle_period` (lines 117-118): lazy dict access. -/
def Song.get_shuffle_period (s : Song) : Except PyError Rat :=
  pyGet s.data.shufflePeriod

/-- `SongCollection.__init__` (lines 27-30): a fixed list of songs. -/
structure SongCollection where
  songs : List Song
deriving Repr

/-- `SongCollection.get_number_of_songs` (lines 32-33). -/
def SongCollection.get_number_of_songs (c : SongCollection) : Nat :=
  c.songs.length

/-- The list comprehension `[f(s) for s in songs]` over a fallible
accessor: evaluates left to right, the first exception propagates. -/
def mapExcept (f : Song → Except PyError Rat) :
    List Song → Except PyError (List Rat)
  | [] => Except.ok []
  | s :: rest => do
      let v ← f s
      let vs ← mapExcept f rest
      Except.ok (v :: vs)

/-- `SongCollection.get_beats_per_minute` (lines 40-41): evaluates every
member's accessor (a `KeyError` there propagates), sums, then divides by
the song count — an unguarded division that raises `ZeroDivisionError`
when the collection is empty. -/
def SongCollection.get_beats_per_minute (c : SongCollection) :
    Except PyError Rat := do
  let vals ← mapExcept Song.get_beats_per_minute c.songs
  pyDiv vals.sum (c.get_number_of_songs : Rat)

/-- `SongCollection.get_beats_per_bar` (lines 43-44): same shape. -/
def SongCollection.get_beats_per_bar (c : SongCollection) :
    Except PyError Rat := do
  let vals ← mapExcept Song.get_beats_per_bar c.songs
  pyDiv vals.sum (c.get_number_of_songs : Rat)

/-- `SongCollection.get_note_jump_speed` (lines 46-47): same shape. -/
def SongCollection.get_note_jump_speed (c : SongCollection) :
    Except PyError Rat := do
  let vals ← mapExcept Song.get_note_jump_speed c.songs
  pyDiv vals.sum (c.get_number_of_songs : Rat)

/-- `SongCollection.get_shuffle` (lines 49-50): same shape. -/
def SongCollection.get_shuffle (c : SongCollection) :
    Except PyError Rat := do
  let vals ← mapExcept Song.get_shuffle c.songs
  pyDiv vals.sum (c.get_number_of_songs : Rat)

/-- `SongCollection.get_shuffle_period` (lines 52-53): same shape. -/
def SongCollection.get_shuffle_period (c : SongCollection) :
    Except PyError Rat := do
  let vals ← mapExcept Song.get_shuffle_period c.songs
  pyDiv vals.sum (c.get_number_of_songs : Rat)

/-- The numeric content of the summary lines built by
`get_basic_data_as_text` (string formatting is presentation only). -/
structure BasicData where
  beatsPerMinute : Rat
  beatsPerBar : Rat
  noteJumpSpeed : Rat
  shuffle : Rat
  shufflePeriod : Rat
  left_note_count : Nat
  right_note_count : Nat
  total_normal_notes : Nat
  bomb_count : Nat
  leaning : Rat
  average_difference : Rat
deriving DecidableEq, Repr

/-- The `diffs` list of `get_basic_data_as_text` (lines 144-149):
`abs(t2 - t1)` over consecutive pairs of the NORMAL view in file order. -/
def diffsOf (notes : List Note) : List Rat :=
  (notes.zip notes.tail).map (fun p => |p.2.time - p.1.time|)

/-- `get_basic_data_as_text` (lines 120-154), with the formatted strings
replaced by the numbers they print. The computation order matches the
source: five metadata reads, the left/right/bomb counts, the leaning
fractions (`ZeroDivisionError` when `left + right == 0`), then the mean
gap between consecutive NORMAL notes (`ZeroDivisionError` when `diffs`
is empty, i.e. fewer than two NORMAL notes). -/
def get_basic_data (song : Song) : Except PyError BasicData := do
  let bpm ← song.get_beats_per_minute
  let bpb ← song.get_beats_per_bar
  let njs ← song.get_note_jump_speed
  let sh ← song.get_shuffle
  let shp ← song.get_shuffle_period
  let left_note_count := song.notes_left.length
  let right_note_count := song.notes_right.length
  let total_normal_notes := left_note_count + right_note_count
  let bomb_count := song.notes_bomb.length
  let left_note_fraction ←
    pyDiv (left_note_count : Rat) (total_normal_notes : Rat)
  let right_note_fraction ←
    pyDiv (right_note_count : Rat) (total_normal_notes : Rat)
  let diffs := diffsOf song.notes_normal
  let average_difference ← pyDiv diffs.sum (diffs.length : Rat)
  Except.ok
    { beatsPerMinute := bpm, beatsPerBar := bpb, noteJumpSpeed := njs,
      shuffle := sh, shufflePeriod := shp,
      left_note_count := left_note_count,
      right_note_count := right_note_count,
      total_normal_notes := total_normal_notes,
      bomb_count := bomb_count,
      leaning := left_note_fraction - right_note_fraction,
      average_difference := average_difference }

/-- The `notes_count` Counter of `build_note_heatmap` (lines 157-161):
occurrences of one `(lineIndex, lineLayer)` position in the view. -/
def notesCountAt (notes : List Note) (pos : Int × Int) : Nat :=
  (notes.filter (fun n => (n.lineIndex, n.lineLayer) = pos)).length

/-- The raw 3×4 count array of `build_note_heatmap` (lines 166-168):
rows are layers 2, 1, 0; columns are indices 0..3. Any position outside
these twelve cells is counted by the Counter but never read here. -/
def heatmapData (notes : List Note) : List (List Nat) :=
  [[notesCountAt notes (0, 2), notesCountAt notes (1, 2),
    notesCountAt notes (2, 2), notesCountAt notes (3, 2)],
   [notesCountAt notes (0, 1), notesCountAt notes (1, 1),
    notesCountAt notes (2, 1), notesCountAt notes (3, 1)],
   [notesCountAt notes (0, 0), notesCountAt notes (1, 0),
    notesCountAt notes (2, 0), notesCountAt notes (3, 0)]]

/-- `build_note_heatmap`'s normalized grid (line 170):
`data = data / len(notes)`, a numpy element-wise division with no guard —
for an empty view every cell is `0 / 0 = nan`. -/
def build_note_heatmap (notes : List Note) : List (List NpVal) :=
  (heatmapData notes).map (fun row => row.map (fun c => npDiv c notes.length))

/-- Reads a finite grid value; `nan` and `inf` have no finite value and
map to `0` (used only where every cell is proved finite). -/
def NpVal.toRat : NpVal → Rat
  | NpVal.num q => q
  | NpVal.nan => 0
  | NpVal.inf => 0

/-- The sum of the twelve normalized grid cells of `build_note_heatmap`. -/
def gridDensitySum (notes : List Note) : Rat :=
  ((build_note_heatmap notes).map (fun row => (row.map NpVal.toRat).sum)).sum

/-- A note whose position lies in the documented ranges
`lineIndex ∈ [0,3]`, `lineLayer ∈ [0,2]` — the twelve cells the grid reads. -/
def inGrid (n : Note) : Prop :=
  0 ≤ n.lineIndex ∧ n.lineIndex ≤ 3 ∧ 0 ≤ n.lineLayer ∧ n.lineLayer ≤ 2

instance (n : Note) : Decidable (inGrid n) := by
  unfold inGrid; infer_instance

/-- The notes of a view that land in one of the twelve grid cells. -/
def inGridCount (notes : List Note) : Nat :=
  (notes.filter (fun n => decide (inGrid n))).length

/-- The `cut_direction_count` Counter value for key `k` after the loops of
`build_cut_directions_drawing` (lines 316-322): keys 0..8 are initialized
to 0, then each note's `_cutDirection` is incremented (a direction outside
0..8 creates a new key). -/
def cut_direction_count (notes : List Note) (k : Int) : Nat :=
  (notes.filter (fun n => n.cutDirection = k)).length

/-- The Counter's key set after the loops: the initialized keys 0..8
together with every `_cutDirection` occurring in the view (`List.dedup`
models dict-key uniqueness; only the set matters, the keys are sorted
before use). -/
def dictKeys (notes : List Note) : List Int :=
  (((List.range 9).map Int.ofNat) ++ notes.map (fun n => n.cutDirection)).dedup

/-- `sorted(cut_direction_count.keys())` (line 326): the unique keys in
ascending order (`List.insertionSort` models Python's `sorted`). -/
def sortedKeys (notes : List Note) : List Int :=
  List.insertionSort (fun a b => a ≤ b) (dictKeys notes)

/-- `total_cuts = sum(cut_direction_count.values())` (line 324): the sum
of the Counter's values over its (unique) keys. -/
def total_cuts (notes : List Note) : Nat :=
  ((dictKeys notes).map (fun k => cut_direction_count notes k)).sum

/-- The `cut_percentages` computation of `build_cut_directions_drawing`
(lines 324-329): for each sorted key, `count / total_cuts`. The keys
always include 0..8, so on an empty view the first loop iteration divides
`0 / 0` and raises `ZeroDivisionError`. -/
def cut_percentages (notes : List Note) : Except PyError (List Rat) :=
  if total_cuts notes = 0 then Except.error PyError.zeroDivisionError
  else Except.ok
    ((sortedKeys notes).map
      (fun k => (cut_direction_count notes k : Rat) / (total_cuts notes : Rat)))

/-- `build_histogram`'s input series (line 290): the `_time` values of the
view, unmodified and in order. -/
def histogramTimes (notes : List Note) : List Rat :=
  notes.map (fun n => n.time)

/-! ## Lemmas about the classifier -/

lemma isIncluded_left (t : Int) : isIncluded NoteType.LEFT t = (t == 0) := by
  by_cases h0 : t = 0
  · subst h0; decide
  · by_cases h1 : t = 1
    · subst h1; decide
    · simp [isIncluded, h0, h1]

lemma isIncluded_right (t : Int) : isIncluded NoteType.RIGHT t = (t == 1) := by
  by_cases h0 : t = 0
  · subst h0; decide
  · by_cases h1 : t = 1
    · subst h1; decide
    · simp [isIncluded, h0, h1]

lemma isIncluded_bomb (t : Int) : isIncluded NoteType.BOMB t = (t == 3) := by
  by_cases h3 : t = 3
  · subst h3; decide
  · by_cases h0 : t = 0
    · subst h0; decide
    · by_cases h1 : t = 1
      · subst h1; decide
      · simp [isIncluded, h0, h1, h3]

lemma isIncluded_normal (t : Int) :
    isIncluded NoteType.NORMAL t = (t == 0 || t == 1) := by
  by_cases h0 : t = 0
  · subst h0; decide
  · by_cases h1 : t = 1
    · subst h1; decide
    · simp [isIncluded, h0, h1]

lemma filterNotes_left (notes : List Note) :
    filterNotes notes NoteType.LEFT = notes.filter (fun n => n.type == 0) := by
  simp [filterNotes, isIncluded_left]

lemma filterNotes_right (notes : List Note) :
    filterNotes notes NoteType.RIGHT = notes.filter (fun n => n.type == 1) := by
  simp [filterNotes, isIncluded_right]

lemma filterNotes_bomb (notes : List Note) :
    filterNotes notes NoteType.BOMB = notes.filter (fun n => n.type == 3) := by
  simp [filterNotes, isIncluded_bomb]

lemma filterNotes_normal (notes : List Note) :
    filterNotes notes NoteType.NORMAL
      = notes.filter (fun n => n.type == 0 || n.type == 1) := by
  simp [filterNotes, isIncluded_normal]

lemma length_filter_normal_split (l : List Note) :
    (l.filter (fun n => n.type == 0 || n.type == 1)).length
      = (l.filter (fun n => n.type == 0)).length
        + (l.filter (fun n => n.type == 1)).length := by
  induction l with
  | nil => rfl
  | cons n l ih =>
    by_cases h0 : n.type = 0
    · simp [List.filter_cons, h0, ih]; omega
    · by_cases h1 : n.type = 1
      · simp [List.filter_cons, h0, h1, ih]; omega
      · simp [List.filter_cons, h0, h1, ih]

/-! ## Claim theorems -/

/-- C1: For every raw note list, the classifier's filtered views form a
partition by type code: the LEFT view contains exactly the notes with
type 0 (in original order), the RIGHT view exactly those with type 1, the
BOMB view exactly those with type 3, and the NORMAL view exactly those
with type 0 or 1; consequently |NORMAL| = |LEFT| + |RIGHT|, NORMAL and
BOMB are disjoint, classification never fails for any type value, and a
note with any other type value appears in none of these four views (only
in the unfiltered ALL view). -/
theorem c1_classifier_partition (notes : List Note) :
    filterNotes notes NoteType.LEFT = notes.filter (fun n => n.type == 0)
    ∧ filterNotes notes NoteType.RIGHT = notes.filter (fun n => n.type == 1)
    ∧ filterNotes notes NoteType.BOMB = notes.filter (fun n => n.type == 3)
    ∧ filterNotes notes NoteType.NORMAL
        = notes.filter (fun n => n.type == 0 || n.type == 1)
    ∧ (filterNotes notes NoteType.NORMAL).length
        = (filterNotes notes NoteType.LEFT).length
          + (filterNotes notes NoteType.RIGHT).length
    ∧ (∀ n, n ∈ filterNotes notes NoteType.NORMAL →
        n ∉ filterNotes notes NoteType.BOMB)
    ∧ (∀ n, n.type ≠ 0 → n.type ≠ 1 → n.type ≠ 3 →
        n ∉ filterNotes notes NoteType.LEFT
        ∧ n ∉ filterNotes notes NoteType.RIGHT
        ∧ n ∉ filterNotes notes NoteType.BOMB
        ∧ n ∉ filterNotes notes NoteType.NORMAL)
    ∧ filterNotes notes NoteType.ALL = notes := by
  refine ⟨filterNotes_left notes, filterNotes_right notes,
    filterNotes_bomb notes, filterNotes_normal notes, ?_, ?_, ?_, rfl⟩
  · rw [filterNotes_left, filterNotes_right, filterNotes_normal]
    exact length_filter_normal_split notes
  · intro n hn hb
    rw [filterNotes_normal] at hn
    rw [filterNotes_bomb] at hb
    have h1 := (List.mem_filter.mp hn).2
    have h2 := (List.mem_filter.mp hb).2
    simp only [beq_iff_eq, Bool.or_eq_true] at h1 h2
    omega
  · intro n h0 h1 h3
    rw [filterNotes_left, filterNotes_right, filterNotes_bomb,
      filterNotes_normal]
    refine ⟨fun hm => ?_, fun hm => ?_, fun hm => ?_, fun hm => ?_⟩ <;>
    · have := (List.mem_filter.mp hm).2
      simp only [beq_iff_eq, Bool.or_eq_true] at this
      omega

/-- A sample raw note list exercising every classifier branch: one LEFT
note, one RIGHT note, one BOMB note, and one note with the unrecognized
type code 7. -/
def c1Notes : List Note :=
  [{ time := 0, lineIndex := 0, lineLayer := 0, type := 0, cutDirection := 1 },
   { time := 1, lineIndex := 3, lineLayer := 2, type := 1, cutDirection := 0 },
   { time := 2, lineIndex := 1, lineLayer := 1, type := 3, cutDirection := 8 },
   { time := 3, lineIndex := 2, lineLayer := 0, type := 7, cutDirection := 4 }]

theorem c1_classifier_partition_witness :
    filterNotes c1Notes NoteType.ALL = c1Notes
    ∧ ({ time := 0, lineIndex := 0, lineLayer := 0, type := 0,
         cutDirection := 1 : Note }
        ∉ filterNotes c1Notes NoteType.BOMB)
    ∧ ({ time := 3, lineIndex := 2, lineLayer := 0, type := 7,
         cutDirection := 4 : Note }
        ∉ filterNotes c1Notes NoteType.NORMAL) := by
  have h := c1_classifier_partition c1Notes
  refine ⟨h.2.2.2.2.2.2.2, ?_, ?_⟩
  · exact h.2.2.2.2.2.1 _ (by rw [h.2.2.2.1]; decide)
  · exact (h.2.2.2.2.2.2.1 _ (by decide) (by decide) (by decide)).2.2.2

/-- C2 (evaluation at the failing input): on a `SongCollection` with
`size() == 0`, every aggregate-mean operation performs `sum([]) / 0` and
raises Python's `ZeroDivisionError` — there is no `EmptyCollectionError`
guard anywhere in the code. -/
theorem c2_empty_collection_means_zero_division :
    (SongCollection.mk []).get_beats_per_minute
        = Except.error PyError.zeroDivisionError
    ∧ (SongCollection.mk []).get_beats_per_bar
        = Except.error PyError.zeroDivisionError
    ∧ (SongCollection.mk []).get_note_jump_speed
        = Except.error PyError.zeroDivisionError
    ∧ (SongCollection.mk []).get_shuffle
        = Except.error PyError.zeroDivisionError
    ∧ (SongCollection.mk []).get_shuffle_period
        = Except.error PyError.zeroDivisionError := by
  refine ⟨?_, ?_, ?_, ?_, ?_⟩ <;> rfl

/-- C5 (evaluation at the failing input): `build_note_heatmap` on the
empty note view divides the all-zero count array by `len(notes) == 0`
with no guard; numpy turns every `0 / 0` cell into `nan`, so the grid is
all-NaN, not all-zero. -/
theorem c5_empty_view_heatmap_is_nan :
    build_note_heatmap []
      = [[NpVal.nan, NpVal.nan, NpVal.nan, NpVal.nan],
         [NpVal.nan, NpVal.nan, NpVal.nan, NpVal.nan],
         [NpVal.nan, NpVal.nan, NpVal.nan, NpVal.nan]]
    ∧ NpVal.nan ≠ NpVal.num 0 := by
  exact ⟨rfl, by decide⟩

/-- C8: For every `SongCollection` containing exactly one song,
`meanBeatsPerMinute()` returns exactly that song's `beatsPerMinute()`
value — `sum([x]) / 1 = x` exactly, no rounding (the result is identical
even when the song's accessor itself fails). -/
theorem c8_singleton_mean_bpm (s : Song) :
    (SongCollection.mk [s]).get_beats_per_minute = s.get_beats_per_minute := by
  cases hb : s.get_beats_per_minute with
  | error e =>
    simp [SongCollection.get_beats_per_minute, mapExcept, hb,
      Bind.bind, Except.bind]
  | ok b =>
    simp [SongCollection.get_beats_per_minute, mapExcept, hb,
      Bind.bind, Except.bind, SongCollection.get_number_of_songs, pyDiv]

/-- C10: For every `Song`, `get_notes` called with `NoteType.NONE` — a
member of the public enumeration covered by no branch — returns Python
`None` (so never an empty list), while each of ALL, NORMAL, LEFT, RIGHT
and BOMB returns an actual list. -/
theorem c10_get_notes_none_returns_none (s : Song) :
    Song.get_notes s NoteType.NONE = none
    ∧ (∀ l : List Note, Song.get_notes s NoteType.NONE ≠ some l)
    ∧ (∀ t : NoteType, t ≠ NoteType.NONE →
        ∃ l, Song.get_notes s t = some l) := by
  refine ⟨rfl, fun l h => by simp [Song.get_notes] at h, fun t ht => ?_⟩
  cases t with
  | NONE => exact absurd rfl ht
  | ALL => exact ⟨s.notesAll, rfl⟩
  | NORMAL => exact ⟨s.notes_normal, rfl⟩
  | LEFT => exact ⟨s.notes_left, rfl⟩
  | RIGHT => exact ⟨s.notes_right, rfl⟩
  | BOMB => exact ⟨s.notes_bomb, rfl⟩

/-- A concrete constructed song for exercising `get_notes`. -/
def c10Song : Song :=
  { ident := "ident", name := "name", difficulty := "Easy",
    data :=
      { events := some [], notes := some [], version := some "1.0",
        beatsPerMinute := some 120, beatsPerBar := some 4,
        noteJumpSpeed := some 10, shuffle := some 0,
        shufflePeriod := some (1 / 2) },
    notesAll := [], notes_normal := [], notes_left := [],
    notes_right := [], notes_bomb := [] }

theorem c10_get_notes_none_returns_none_witness :
    Song.get_notes c10Song NoteType.NONE = none
    ∧ Song.get_notes c10Song NoteType.NONE ≠ some []
    ∧ ∃ l, Song.get_notes c10Song NoteType.LEFT = some l := by
  have h := c10_get_notes_none_returns_none c10Song
  exact ⟨h.1, h.2.1 [], h.2.2 NoteType.LEFT (by decide)⟩

/-! ## Construction and the summary computation -/

/-- Characterization of `Song.build`: it succeeds exactly on documents
holding the `_events` and `_notes` keys, and the resulting song is the
document plus the four cached classifier views. -/
lemma Song.build_ok_iff (i nm d : String) (doc : SongDoc) (s : Song) :
    Song.build i nm d doc = Except.ok s ↔
      ∃ ev ns, doc.events = some ev ∧ doc.notes = some ns ∧
        s = { ident := i, name := nm, difficulty := d, data := doc,
              notesAll := ns,
              notes_normal := filterNotes ns NoteType.NORMAL,
              notes_left := filterNotes ns NoteType.LEFT,
              notes_right := filterNotes ns NoteType.RIGHT,
              notes_bomb := filterNotes ns NoteType.BOMB } := by
  cases hev : doc.events with
  | none =>
    simp [Song.build, pyGet, hev, Bind.bind, Except.bind]
  | some ev =>
    cases hns : doc.notes with
    | none =>
      simp [Song.build, pyGet, hev, hns, Bind.bind, Except.bind]
    | some ns =>
      simp only [Song.build, pyGet, hev, hns, Bind.bind, Except.bind]
      constructor
      · intro h
        exact ⟨ev, ns, rfl, rfl, (Except.ok.injEq _ _).mp h.symm⟩
      · rintro ⟨ev', ns', hev', hns', rfl⟩
        injection hns' with h
        subst h
        rfl

lemma Song.build_error (i nm d : String) (doc : SongDoc)
    (h : doc.events = none ∨ doc.notes = none) :
    Song.build i nm d doc = Except.error PyError.keyError := by
  rcases h with h | h
  · simp [Song.build, pyGet, h, Bind.bind, Except.bind]
  · cases hev : doc.events with
    | none => simp [Song.build, pyGet, hev, Bind.bind, Except.bind]
    | some ev => simp [Song.build, pyGet, hev, h, Bind.bind, Except.bind]

lemma diffsOf_length (l : List Note) : (diffsOf l).length = l.length - 1 := by
  simp [diffsOf]

/-- C3: For every `Song` (with its metadata fields present, as the data
model requires), the summary computation fails explicitly with the
division-by-zero error — and never produces NaN — whenever
`leftCount + rightCount == 0`, and also whenever the song has fewer than
2 NORMAL notes (the mean inter-note-gap denominator is zero); with at
least 2 NORMAL notes it returns a definite value. -/
theorem c3_summary_zero_denominators (i nm d : String) (doc : SongDoc)
    (s : Song) (hs : Song.build i nm d doc = Except.ok s)
    (h1 : doc.beatsPerMinute.isSome) (h2 : doc.beatsPerBar.isSome)
    (h3 : doc.noteJumpSpeed.isSome) (h4 : doc.shuffle.isSome)
    (h5 : doc.shufflePeriod.isSome) :
    (s.notes_left.length + s.notes_right.length = 0 →
      get_basic_data s = Except.error PyError.zeroDivisionError)
    ∧ (s.notes_normal.length < 2 →
      get_basic_data s = Except.error PyError.zeroDivisionError)
    ∧ (2 ≤ s.notes_normal.length →
      ∃ b, get_basic_data s = Except.ok b) := by
  obtain ⟨ev, ns, hev, hns, rfl⟩ := (Song.build_ok_iff i nm d doc s).mp hs
  obtain ⟨v1, hv1⟩ := Option.isSome_iff_exists.mp h1
  obtain ⟨v2, hv2⟩ := Option.isSome_iff_exists.mp h2
  obtain ⟨v3, hv3⟩ := Option.isSome_iff_exists.mp h3
  obtain ⟨v4, hv4⟩ := Option.isSome_iff_exists.mp h4
  obtain ⟨v5, hv5⟩ := Option.isSome_iff_exists.mp h5
  have hlen : (filterNotes ns NoteType.NORMAL).length
      = (filterNotes ns NoteType.LEFT).length
        + (filterNotes ns NoteType.RIGHT).length := by
    rw [filterNotes_left, filterNotes_right, filterNotes_normal]
    exact length_filter_normal_split ns
  dsimp only
  refine ⟨fun h0 => ?_, fun h0 => ?_, fun h0 => ?_⟩
  · have hL : (filterNotes ns NoteType.LEFT).length = 0 := by omega
    have hR : (filterNotes ns NoteType.RIGHT).length = 0 := by omega
    simp [get_basic_data, Song.get_beats_per_minute, Song.get_beats_per_bar,
      Song.get_note_jump_speed, Song.get_shuffle, Song.get_shuffle_period,
      pyGet, hv1, hv2, hv3, hv4, hv5, Bind.bind, Except.bind, pyDiv, hL, hR]
  · by_cases hz : (filterNotes ns NoteType.LEFT).length
        + (filterNotes ns NoteType.RIGHT).length = 0
    · have hL : (filterNotes ns NoteType.LEFT).length = 0 := by omega
      have hR : (filterNotes ns NoteType.RIGHT).length = 0 := by omega
      simp [get_basic_data, Song.get_beats_per_minute, Song.get_beats_per_bar,
        Song.get_note_jump_speed, Song.get_shuffle, Song.get_shuffle_period,
        pyGet, hv1, hv2, hv3, hv4, hv5, Bind.bind, Except.bind, pyDiv, hL, hR]
    · have hd : (diffsOf (filterNotes ns NoteType.NORMAL)).length = 0 := by
        rw [diffsOf_length]; omega
      have hne : ((filterNotes ns NoteType.LEFT).length : Rat)
          + ((filterNotes ns NoteType.RIGHT).length : Rat) ≠ 0 := by
        rw [← Nat.cast_add]
        exact_mod_cast hz
      simp [get_basic_data, Song.get_beats_per_minute, Song.get_beats_per_bar,
        Song.get_note_jump_speed, Song.get_shuffle, Song.get_shuffle_period,
        pyGet, hv1, hv2, hv3, hv4, hv5, Bind.bind, Except.bind, pyDiv, hd, hne]
  · have hz : (filterNotes ns NoteType.LEFT).length
        + (filterNotes ns NoteType.RIGHT).length ≠ 0 := by omega
    have hne : ((filterNotes ns NoteType.LEFT).length : Rat)
        + ((filterNotes ns NoteType.RIGHT).length : Rat) ≠ 0 := by
      rw [← Nat.cast_add]
      exact_mod_cast hz
    have hdne : ((diffsOf (filterNotes ns NoteType.NORMAL)).length : Rat) ≠ 0 := by
      have : (diffsOf (filterNotes ns NoteType.NORMAL)).length ≠ 0 := by
        rw [diffsOf_length]; omega
      exact_mod_cast this
    simp [get_basic_data, Song.get_beats_per_minute, Song.get_beats_per_bar,
      Song.get_note_jump_speed, Song.get_shuffle, Song.get_shuffle_period,
      pyGet, hv1, hv2, hv3, hv4, hv5, Bind.bind, Except.bind, pyDiv, hne, hdne]

/-- A song with exactly one NORMAL (left-hand) note: the leaning division
succeeds but the inter-note-gap denominator `len(diffs)` is zero. -/
def c3Doc : SongDoc :=
  { events := some [], version := some "1.0",
    notes := some
      [{ time := 0, lineIndex := 0, lineLayer := 0, type := 0,
         cutDirection := 1 }],
    beatsPerMinute := some 120, beatsPerBar := some 4,
    noteJumpSpeed := some 10, shuffle := some 0,
    shufflePeriod := some (1 / 2) }

def c3Song : Song :=
  { ident := "i", name := "n", difficulty := "Easy", data := c3Doc,
    notesAll :=
      [{ time := 0, lineIndex := 0, lineLayer := 0, type := 0,
         cutDirection := 1 }],
    notes_normal :=
      [{ time := 0, lineIndex := 0, lineLayer := 0, type := 0,
         cutDirection := 1 }],
    notes_left :=
      [{ time := 0, lineIndex := 0, lineLayer := 0, type := 0,
         cutDirection := 1 }],
    notes_right := [], notes_bomb := [] }

/-- A song with a single BOMB note and no NORMAL notes:
`leftCount + rightCount == 0`. -/
def c3DocBomb : SongDoc :=
  { events := some [], version := some "1.0",
    notes := some
      [{ time := 0, lineIndex := 1, lineLayer := 1, type := 3,
         cutDirection := 8 }],
    beatsPerMinute := some 120, beatsPerBar := some 4,
    noteJumpSpeed := some 10, shuffle := some 0,
    shufflePeriod := some (1 / 2) }

def c3SongBomb : Song :=
  { ident := "i", name := "n", difficulty := "Easy", data := c3DocBomb,
    notesAll :=
      [{ time := 0, lineIndex := 1, lineLayer := 1, type := 3,
         cutDirection := 8 }],
    notes_normal := [], notes_left := [], notes_right := [],
    notes_bomb :=
      [{ time := 0, lineIndex := 1, lineLayer := 1, type := 3,
         cutDirection := 8 }] }

theorem c3_summary_zero_denominators_witness :
    get_basic_data c3Song = Except.error PyError.zeroDivisionError
    ∧ get_basic_data c3SongBomb = Except.error PyError.zeroDivisionError :=
  ⟨(c3_summary_zero_denominators "i" "n" "Easy" c3Doc c3Song rfl
      (by decide) (by decide) (by decide) (by decide) (by decide)).2.1
      (by decide),
   (c3_summary_zero_denominators "i" "n" "Easy" c3DocBomb c3SongBomb
      rfl (by decide) (by decide) (by decide) (by decide)
      (by decide)).1 (by decide)⟩

lemma leaning_arith (L R : Nat) (hpos : 0 < L + R) :
    (L : Rat) / ((L : Rat) + (R : Rat)) - (R : Rat) / ((L : Rat) + (R : Rat))
        = ((L : Rat) - (R : Rat)) / ((L : Rat) + (R : Rat))
    ∧ (-1 ≤ (L : Rat) / ((L : Rat) + (R : Rat))
          - (R : Rat) / ((L : Rat) + (R : Rat)))
    ∧ ((L : Rat) / ((L : Rat) + (R : Rat))
          - (R : Rat) / ((L : Rat) + (R : Rat)) ≤ 1)
    ∧ (R = 0 → (L : Rat) / ((L : Rat) + (R : Rat))
          - (R : Rat) / ((L : Rat) + (R : Rat)) = 1)
    ∧ (L = 0 → (L : Rat) / ((L : Rat) + (R : Rat))
          - (R : Rat) / ((L : Rat) + (R : Rat)) = -1)
    ∧ (L = R → (L : Rat) / ((L : Rat) + (R : Rat))
          - (R : Rat) / ((L : Rat) + (R : Rat)) = 0) := by
  have hc : (0 : Rat) < (L : Rat) + (R : Rat) := by
    have : (0 : Rat) < ((L + R : Nat) : Rat) := by exact_mod_cast hpos
    push_cast at this
    exact this
  have hL0 : (0 : Rat) ≤ (L : Rat) := Nat.cast_nonneg L
  have hR0 : (0 : Rat) ≤ (R : Rat) := Nat.cast_nonneg R
  have key : (L : Rat) / ((L : Rat) + (R : Rat))
      - (R : Rat) / ((L : Rat) + (R : Rat))
      = ((L : Rat) - (R : Rat)) / ((L : Rat) + (R : Rat)) :=
    div_sub_div_same _ _ _
  refine ⟨key, ?_, ?_, ?_, ?_, ?_⟩
  · rw [key]
    rw [le_div_iff₀ hc]
    linarith
  · rw [key]
    rw [div_le_one hc]
    linarith
  · intro hR
    subst hR
    rw [key]
    have hLpos : (0 : Rat) < (L : Rat) := by
      have : 0 < L := by omega
      exact_mod_cast this
    push_cast
    rw [sub_zero, add_zero, div_self (ne_of_gt hLpos)]
  · intro hL
    subst hL
    rw [key]
    have hRpos : (0 : Rat) < (R : Rat) := by
      have : 0 < R := by omega
      exact_mod_cast this
    push_cast
    rw [zero_sub, zero_add, neg_div, div_self (ne_of_gt hRpos)]
  · intro hLR
    subst hLR
    rw [key, sub_self, zero_div]

/-- C7: For every `Song` whose summary computation succeeds with
`leftCount + rightCount > 0`, the leaning scalar it reports equals
`(leftCount - rightCount) / (leftCount + rightCount)`, lies in `[-1, 1]`,
equals `1` when every NORMAL note is LEFT (`rightCount = 0`), `-1` when
every NORMAL note is RIGHT (`leftCount = 0`), and `0` when
`leftCount == rightCount`. -/
theorem c7_leaning_scalar (s : Song) (b : BasicData)
    (hok : get_basic_data s = Except.ok b)
    (hpos : 0 < s.notes_left.length + s.notes_right.length) :
    b.leaning
        = ((s.notes_left.length : Rat) - (s.notes_right.length : Rat))
          / ((s.notes_left.length : Rat) + (s.notes_right.length : Rat))
    ∧ -1 ≤ b.leaning ∧ b.leaning ≤ 1
    ∧ (s.notes_right.length = 0 → b.leaning = 1)
    ∧ (s.notes_left.length = 0 → b.leaning = -1)
    ∧ (s.notes_left.length = s.notes_right.length → b.leaning = 0) := by
  have hlean : b.leaning
      = (s.notes_left.length : Rat)
          / ((s.notes_left.length : Rat) + (s.notes_right.length : Rat))
        - (s.notes_right.length : Rat)
          / ((s.notes_left.length : Rat) + (s.notes_right.length : Rat)) := by
    have hne : ((s.notes_left.length : Rat) + (s.notes_right.length : Rat))
        ≠ 0 := by
      have : ((s.notes_left.length + s.notes_right.length : Nat) : Rat) ≠ 0 := by
        exact_mod_cast Nat.pos_iff_ne_zero.mp hpos
      push_cast at this
      exact this
    cases e1 : s.get_beats_per_minute with
    | error e => simp [get_basic_data, e1, Bind.bind, Except.bind] at hok
    | ok v1 =>
    cases e2 : s.get_beats_per_bar with
    | error e => simp [get_basic_data, e1, e2, Bind.bind, Except.bind] at hok
    | ok v2 =>
    cases e3 : s.get_note_jump_speed with
    | error e =>
      simp [get_basic_data, e1, e2, e3, Bind.bind, Except.bind] at hok
    | ok v3 =>
    cases e4 : s.get_shuffle with
    | error e =>
      simp [get_basic_data, e1, e2, e3, e4, Bind.bind, Except.bind] at hok
    | ok v4 =>
    cases e5 : s.get_shuffle_period with
    | error e =>
      simp [get_basic_data, e1, e2, e3, e4, e5, Bind.bind, Except.bind] at hok
    | ok v5 =>
    by_cases hd : ((diffsOf s.notes_normal).length : Rat) = 0
    · simp [get_basic_data, e1, e2, e3, e4, e5, Bind.bind, Except.bind,
        pyDiv, hne, hd] at hok
    · simp [get_basic_data, e1, e2, e3, e4, e5, Bind.bind, Except.bind,
        pyDiv, hne, hd] at hok
      rw [← hok]
  rw [hlean]
  exact leaning_arith s.notes_left.length s.notes_right.length hpos

/-- A song whose NORMAL notes are all LEFT (two of them, one beat apart). -/
def c7Song : Song :=
  { ident := "i", name := "n", difficulty := "Easy",
    data :=
      { events := some [],
        notes := some
          [{ time := 0, lineIndex := 0, lineLayer := 0, type := 0,
             cutDirection := 1 },
           { time := 1, lineIndex := 1, lineLayer := 0, type := 0,
             cutDirection := 1 }],
        version := some "1.0", beatsPerMinute := some 120,
        beatsPerBar := some 4, noteJumpSpeed := some 10,
        shuffle := some 0, shufflePeriod := some (1 / 2) },
    notesAll :=
      [{ time := 0, lineIndex := 0, lineLayer := 0, type := 0,
         cutDirection := 1 },
       { time := 1, lineIndex := 1, lineLayer := 0, type := 0,
         cutDirection := 1 }],
    notes_normal :=
      [{ time := 0, lineIndex := 0, lineLayer := 0, type := 0,
         cutDirection := 1 },
       { time := 1, lineIndex := 1, lineLayer := 0, type := 0,
         cutDirection := 1 }],
    notes_left :=
      [{ time := 0, lineIndex := 0, lineLayer := 0, type := 0,
         cutDirection := 1 },
       { time := 1, lineIndex := 1, lineLayer := 0, type := 0,
         cutDirection := 1 }],
    notes_right := [], notes_bomb := [] }

/-- The summary data `get_basic_data` computes for `c7Song`. -/
def c7Data : BasicData :=
  { beatsPerMinute := 120, beatsPerBar := 4, noteJumpSpeed := 10,
    shuffle := 0, shufflePeriod := 1 / 2,
    left_note_count := 2, right_note_count := 0, total_normal_notes := 2,
    bomb_count := 0, leaning := 1, average_difference := 1 }

theorem c7_leaning_scalar_witness :
    c7Data.leaning = 1 ∧ -1 ≤ c7Data.leaning ∧ c7Data.leaning ≤ 1 := by
  have hok : get_basic_data c7Song = Except.ok c7Data := by
    norm_num [get_basic_data, c7Song, c7Data, Song.get_beats_per_minute,
      Song.get_beats_per_bar, Song.get_note_jump_speed, Song.get_shuffle,
      Song.get_shuffle_period, pyGet, pyDiv, Bind.bind, Except.bind, diffsOf]
  have h := c7_leaning_scalar c7Song c7Data hok (by decide)
  exact ⟨h.2.2.2.1 rfl, h.2.1, h.2.2.1⟩

/-- A document holding `_events` and `_notes` but none of the six
metadata fields the claim lists. -/
def c9DocNoMeta : SongDoc :=
  { events := some [], notes := some [], version := none,
    beatsPerMinute := none, beatsPerBar := none, noteJumpSpeed := none,
    shuffle := none, shufflePeriod := none }

/-- The song `Song.__init__` happily constructs from `c9DocNoMeta`. -/
def c9SongNoMeta : Song :=
  { ident := "ident", name := "name", difficulty := "Easy",
    data := c9DocNoMeta, notesAll := [], notes_normal := [],
    notes_left := [], notes_right := [], notes_bomb := [] }

/-- C9 counterexample: a document missing every required metadata field
(`_version`, `_beatsPerMinute`, `_beatsPerBar`, `_noteJumpSpeed`,
`_shuffle`, `_shufflePeriod`) but holding `_events` and `_notes` is
accepted by construction — `Song.__init__` does not fail, contradicting
the claim that construction fails whenever a required metadata field is
absent. -/
theorem c9_construction_accepts_missing_metadata :
    Song.build "ident" "name" "Easy" c9DocNoMeta = Except.ok c9SongNoMeta :=
  rfl

/-- C9 as amended: construction fails (with a `KeyError`, the code has no
`MalformedSongError` class) exactly when `_events` or `_notes` is absent;
a missing metadata field does not fail construction but makes the
corresponding accessor fail with a `KeyError` when called — the value is
never silently defaulted, and a present field is returned unchanged. -/
theorem c9_lazy_metadata_validation (i nm d : String) (doc : SongDoc) :
    ((doc.events.isSome ∧ doc.notes.isSome) →
      ∃ s, Song.build i nm d doc = Except.ok s)
    ∧ ((doc.events = none ∨ doc.notes = none) →
      Song.build i nm d doc = Except.error PyError.keyError)
    ∧ (∀ s, Song.build i nm d doc = Except.ok s →
        s.get_version = pyGet doc.version
        ∧ s.get_beats_per_minute = pyGet doc.beatsPerMinute
        ∧ s.get_beats_per_bar = pyGet doc.beatsPerBar
        ∧ s.get_note_jump_speed = pyGet doc.noteJumpSpeed
        ∧ s.get_shuffle = pyGet doc.shuffle
        ∧ s.get_shuffle_period = pyGet doc.shufflePeriod)
    ∧ (doc.beatsPerMinute = none →
      ∀ s, Song.build i nm d doc = Except.ok s →
        s.get_beats_per_minute = Except.error PyError.keyError)
    ∧ (∀ v : Rat, doc.beatsPerMinute = some v →
      ∀ s, Song.build i nm d doc = Except.ok s →
        s.get_beats_per_minute = Except.ok v) := by
  refine ⟨fun h => ?_, Song.build_error i nm d doc, fun s hs => ?_,
    fun hm s hs => ?_, fun v hv s hs => ?_⟩
  · obtain ⟨ev, hev⟩ := Option.isSome_iff_exists.mp h.1
    obtain ⟨ns, hns⟩ := Option.isSome_iff_exists.mp h.2
    exact ⟨_, (Song.build_ok_iff i nm d doc _).mpr ⟨ev, ns, hev, hns, rfl⟩⟩
  · obtain ⟨ev, ns, hev, hns, rfl⟩ := (Song.build_ok_iff i nm d doc s).mp hs
    exact ⟨rfl, rfl, rfl, rfl, rfl, rfl⟩
  · obtain ⟨ev, ns, hev, hns, rfl⟩ := (Song.build_ok_iff i nm d doc s).mp hs
    simp [Song.get_beats_per_minute, pyGet, hm]
  · obtain ⟨ev, ns, hev, hns, rfl⟩ := (Song.build_ok_iff i nm d doc s).mp hs
    simp [Song.get_beats_per_minute, pyGet, hv]

/-- A complete document (every key present). -/
def c9DocFull : SongDoc :=
  { events := some [], notes := some [], version := some "1.0",
    beatsPerMinute := some 120, beatsPerBar := some 4,
    noteJumpSpeed := some 10, shuffle := some 0,
    shufflePeriod := some (1 / 2) }

/-- A document missing the `_notes` key. -/
def c9DocNoNotes : SongDoc :=
  { events := some [], notes := none, version := some "1.0",
    beatsPerMinute := some 120, beatsPerBar := some 4,
    noteJumpSpeed := some 10, shuffle := some 0,
    shufflePeriod := some (1 / 2) }

theorem c9_lazy_metadata_validation_witness :
    (∃ s, Song.build "ident" "name" "Easy" c9DocFull = Except.ok s)
    ∧ Song.build "ident" "name" "Easy" c9DocNoNotes
        = Except.error PyError.keyError
    ∧ Song.get_beats_per_minute c9SongNoMeta
        = Except.error PyError.keyError :=
  ⟨(c9_lazy_metadata_validation "ident" "name" "Easy" c9DocFull).1
      (by decide),
   (c9_lazy_metadata_validation "ident" "name" "Easy" c9DocNoNotes).2.1
      (Or.inr rfl),
   (c9_lazy_metadata_validation "ident" "name" "Easy" c9DocNoMeta).2.2.2.1
      rfl c9SongNoMeta rfl⟩

/-! ## The density grid -/

lemma notesCountAt_cons (n : Note) (l : List Note) (p : Int × Int) :
    notesCountAt (n :: l) p
      = (if (n.lineIndex, n.lineLayer) = p then 1 else 0)
        + notesCountAt l p := by
  simp only [notesCountAt, List.filter_cons]
  by_cases h : (n.lineIndex, n.lineLayer) = p
  · simp [h]; omega
  · simp [h]

lemma inGridCount_cons (n : Note) (l : List Note) :
    inGridCount (n :: l) = (if inGrid n then 1 else 0) + inGridCount l := by
  simp only [inGridCount, List.filter_cons]
  by_cases h : inGrid n
  · simp [h]; omega
  · simp [h]

/-- The twelve grid cells together count exactly the notes whose position
is in range: an out-of-range position is counted by the Counter but read
by none of the twelve cells. -/
lemma count12_eq (l : List Note) :
    notesCountAt l (0, 2) + notesCountAt l (1, 2) + notesCountAt l (2, 2)
      + notesCountAt l (3, 2) + notesCountAt l (0, 1) + notesCountAt l (1, 1)
      + notesCountAt l (2, 1) + notesCountAt l (3, 1) + notesCountAt l (0, 0)
      + notesCountAt l (1, 0) + notesCountAt l (2, 0) + notesCountAt l (3, 0)
      = inGridCount l := by
  induction l with
  | nil => rfl
  | cons n l ih =>
    obtain ⟨tm, li, ll, ty, cd⟩ := n
    simp only [notesCountAt_cons, inGridCount_cons, Prod.mk.injEq, inGrid]
    by_cases h0 : 0 ≤ li ∧ li ≤ 3 ∧ 0 ≤ ll ∧ ll ≤ 2
    · obtain ⟨a1, a2, a3, a4⟩ := h0
      interval_cases li <;> interval_cases ll <;>
        simp [-Prod.mk_one_one, -Prod.mk_zero_zero] <;> omega
    · have hn : ∀ a b : Int, (0 ≤ a ∧ a ≤ 3 ∧ 0 ≤ b ∧ b ≤ 2) →
          ¬(li = a ∧ ll = b) := by
        rintro a b hb ⟨rfl, rfl⟩
        exact h0 hb
      rw [if_neg h0, if_neg (hn 0 2 (by decide)), if_neg (hn 1 2 (by decide)),
        if_neg (hn 2 2 (by decide)), if_neg (hn 3 2 (by decide)),
        if_neg (hn 0 1 (by decide)), if_neg (hn 1 1 (by decide)),
        if_neg (hn 2 1 (by decide)), if_neg (hn 3 1 (by decide)),
        if_neg (hn 0 0 (by decide)), if_neg (hn 1 0 (by decide)),
        if_neg (hn 2 0 (by decide)), if_neg (hn 3 0 (by decide))]
      omega

lemma gridDensitySum_eq (notes : List Note) (h : notes ≠ []) :
    gridDensitySum notes
      = (inGridCount notes : Rat) / (notes.length : Rat) := by
  have hlen : notes.length ≠ 0 := fun hh => h (List.length_eq_zero.mp hh)
  simp only [gridDensitySum, build_note_heatmap, heatmapData, List.map_cons,
    List.map_nil, npDiv, if_neg hlen, NpVal.toRat, List.sum_cons, List.sum_nil]
  rw [← count12_eq]
  push_cast
  ring

/-- C6: For every non-empty note view, every cell of the 3×4 density grid
is a finite number (an out-of-range note is silently dropped, the
computation never fails), the cells sum to `inGridCount / total`, hence to
at most `1`, and to exactly `1` when every note's `(lineIndex, lineLayer)`
lies within `[0,3] × [0,2]`. -/
theorem c6_density_grid_normalization (notes : List Note) (h : notes ≠ []) :
    (∀ row ∈ build_note_heatmap notes, ∀ v ∈ row, ∃ q, v = NpVal.num q)
    ∧ gridDensitySum notes = (inGridCount notes : Rat) / (notes.length : Rat)
    ∧ gridDensitySum notes ≤ 1
    ∧ ((∀ n ∈ notes, inGrid n) → gridDensitySum notes = 1) := by
  have hlen : notes.length ≠ 0 := fun hh => h (List.length_eq_zero.mp hh)
  have hlpos : (0 : Rat) < (notes.length : Rat) := by
    exact_mod_cast Nat.pos_of_ne_zero hlen
  refine ⟨?_, gridDensitySum_eq notes h, ?_, ?_⟩
  · intro row hrow v hv
    rw [build_note_heatmap, List.mem_map] at hrow
    obtain ⟨row0, hrow0, rfl⟩ := hrow
    rw [List.mem_map] at hv
    obtain ⟨c, hc, rfl⟩ := hv
    exact ⟨(c : Rat) / (notes.length : Rat), by simp [npDiv, hlen]⟩
  · rw [gridDensitySum_eq notes h, div_le_one hlpos]
    have hle : inGridCount notes ≤ notes.length := List.length_filter_le _ _
    exact_mod_cast hle
  · intro hall
    have hf : notes.filter (fun n => decide (inGrid n)) = notes :=
      List.filter_eq_self.mpr (fun a ha => by simpa using hall a ha)
    rw [gridDensitySum_eq notes h, inGridCount, hf,
      div_self (ne_of_gt hlpos)]

/-- The spec's concrete scenario: two in-range notes at `(0,0)` and
`(3,2)`; each occupied cell holds `0.5` and the grid sums to `1`. -/
def c6Notes : List Note :=
  [{ time := 0, lineIndex := 0, lineLayer := 0, type := 0, cutDirection := 1 },
   { time := 1, lineIndex := 3, lineLayer := 2, type := 1, cutDirection := 0 }]

theorem c6_density_grid_normalization_witness : gridDensitySum c6Notes = 1 :=
  (c6_density_grid_normalization c6Notes (by decide)).2.2.2 (by decide)

/-! ## The cut-direction distribution -/

lemma cut_direction_count_cons (n : Note) (l : List Note) (k : Int) :
    cut_direction_count (n :: l) k
      = (if n.cutDirection = k then 1 else 0) + cut_direction_count l k := by
  simp only [cut_direction_count, List.filter_cons]
  by_cases h : n.cutDirection = k
  · simp [h]; omega
  · simp [h]

/-- With every direction code in the documented range `0..8`, the nine
initialized Counter buckets together count every note exactly once. -/
lemma cut_count_sum9 (notes : List Note)
    (h : ∀ n ∈ notes, 0 ≤ n.cutDirection ∧ n.cutDirection ≤ 8) :
    cut_direction_count notes 0 + cut_direction_count notes 1
      + cut_direction_count notes 2 + cut_direction_count notes 3
      + cut_direction_count notes 4 + cut_direction_count notes 5
      + cut_direction_count notes 6 + cut_direction_count notes 7
      + cut_direction_count notes 8 = notes.length := by
  induction notes with
  | nil => rfl
  | cons n l ih =>
    have hn := h n (List.mem_cons_self n l)
    have ih2 := ih (fun m hm => h m (List.mem_cons_of_mem n hm))
    obtain ⟨tm, li, ll, ty, cd⟩ := n
    simp only [cut_direction_count_cons, List.length_cons]
    obtain ⟨hb1, hb2⟩ := hn
    simp only at hb1 hb2
    interval_cases cd <;> simp <;> omega

lemma dictKeys_perm_in_range (notes : List Note)
    (h : ∀ n ∈ notes, 0 ≤ n.cutDirection ∧ n.cutDirection ≤ 8) :
    List.Perm (dictKeys notes) ((List.range 9).map Int.ofNat) := by
  have hnd : (dictKeys notes).Nodup := List.nodup_dedup _
  have hmem : ∀ a : Int,
      a ∈ dictKeys notes ↔ a ∈ (List.range 9).map Int.ofNat := by
    intro a
    simp only [dictKeys, List.mem_dedup, List.mem_append, List.mem_map,
      List.mem_range]
    constructor
    · rintro (⟨k, hk, rfl⟩ | ⟨n, hn, rfl⟩)
      · exact ⟨k, hk, rfl⟩
      · have hb := h n hn
        refine ⟨(n.cutDirection).toNat, by omega, ?_⟩
        show ((n.cutDirection.toNat : Nat) : Int) = n.cutDirection
        omega
    · rintro ⟨k, hk, rfl⟩
      exact Or.inl ⟨k, hk, rfl⟩
  exact (List.perm_ext_iff_of_nodup hnd (by decide)).mpr hmem

lemma sortedKeys_in_range (notes : List Note)
    (h : ∀ n ∈ notes, 0 ≤ n.cutDirection ∧ n.cutDirection ≤ 8) :
    sortedKeys notes = (List.range 9).map Int.ofNat := by
  refine List.eq_of_perm_of_sorted
    ((List.perm_insertionSort _ _).trans (dictKeys_perm_in_range notes h))
    (List.sorted_insertionSort _ _) ?_
  decide

lemma total_cuts_in_range (notes : List Note)
    (h : ∀ n ∈ notes, 0 ≤ n.cutDirection ∧ n.cutDirection ≤ 8) :
    total_cuts notes = notes.length := by
  have hp : ((dictKeys notes).map (fun k => cut_direction_count notes k)).sum
      = (((List.range 9).map Int.ofNat).map
          (fun k => cut_direction_count notes k)).sum :=
    List.Perm.sum_eq (List.Perm.map _ (dictKeys_perm_in_range notes h))
  have h0 : (List.range 9).map Int.ofNat = [0, 1, 2, 3, 4, 5, 6, 7, 8] := by
    decide
  have h9 := cut_count_sum9 notes h
  rw [total_cuts, hp, h0]
  simp only [List.map_cons, List.map_nil, List.sum_cons, List.sum_nil]
  omega

/-- C4: For every non-empty note view (direction codes in the documented
range `0..8`), the cut-direction distribution has nine per-direction
percentages summing to exactly `1` (hence within the floating tolerance
`1e-9`); on the empty view the division `0 / 0` raises the
division-by-zero error rather than returning an all-zero distribution. -/
theorem c4_cut_direction_distribution (notes : List Note)
    (h1 : notes ≠ [])
    (h2 : ∀ n ∈ notes, 0 ≤ n.cutDirection ∧ n.cutDirection ≤ 8) :
    (∃ ps, cut_percentages notes = Except.ok ps ∧ ps.length = 9
      ∧ ps.sum = 1 ∧ |ps.sum - 1| ≤ 1 / 1000000000)
    ∧ cut_percentages [] = Except.error PyError.zeroDivisionError := by
  have hlen : notes.length ≠ 0 := fun hh => h1 (List.length_eq_zero.mp hh)
  have htot : total_cuts notes = notes.length := total_cuts_in_range notes h2
  have htne : total_cuts notes ≠ 0 := by omega
  have hsk := sortedKeys_in_range notes h2
  have h0 : (List.range 9).map Int.ofNat = [0, 1, 2, 3, 4, 5, 6, 7, 8] := by
    decide
  have hok : cut_percentages notes
      = Except.ok ((sortedKeys notes).map
          (fun k => (cut_direction_count notes k : Rat)
            / (total_cuts notes : Rat))) := by
    rw [cut_percentages, if_neg htne]
  have hc : ((total_cuts notes : Nat) : Rat) ≠ 0 := by exact_mod_cast htne
  have h9 := cut_count_sum9 notes h2
  have h9q : (cut_direction_count notes 0 : Rat)
      + (cut_direction_count notes 1 : Rat)
      + (cut_direction_count notes 2 : Rat)
      + (cut_direction_count notes 3 : Rat)
      + (cut_direction_count notes 4 : Rat)
      + (cut_direction_count notes 5 : Rat)
      + (cut_direction_count notes 6 : Rat)
      + (cut_direction_count notes 7 : Rat)
      + (cut_direction_count notes 8 : Rat)
      = (total_cuts notes : Rat) := by
    rw [htot]
    exact_mod_cast congrArg (fun n : Nat => (n : Rat)) h9
  have hsum : ((sortedKeys notes).map
      (fun k => (cut_direction_count notes k : Rat)
        / (total_cuts notes : Rat))).sum = 1 := by
    rw [hsk, h0]
    simp only [List.map_cons, List.map_nil, List.sum_cons, List.sum_nil]
    field_simp
    linarith [h9q]
  refine ⟨⟨_, hok, ?_, hsum, ?_⟩, by decide⟩
  · rw [hsk, h0]
    rfl
  · rw [hsum]
    norm_num

/-- The spec's concrete scenario: two notes with cut directions 1 and 0. -/
def c4Notes : List Note :=
  [{ time := 0, lineIndex := 0, lineLayer := 0, type := 0, cutDirection := 1 },
   { time := 1, lineIndex := 3, lineLayer := 2, type := 1, cutDirection := 0 }]

theorem c4_cut_direction_distribution_witness :
    (∃ ps, cut_percentages c4Notes = Except.ok ps ∧ ps.length = 9
      ∧ ps.sum = 1 ∧ |ps.sum - 1| ≤ 1 / 1000000000)
    ∧ cut_percentages [] = Except.error PyError.zeroDivisionError :=
  c4_cut_direction_distribution c4Notes (by decide) (by decide)
